import Mathlib

/-!
Verification of the Sine capture core (frontend recorder, transport layer and
codec negotiation) against its natural-language specification.

The definitions below are a shallow embedding of:
  * src/frontend/src/lib/codec.ts   (codec negotiation chain)
  * src/frontend/src/lib/transport.ts (transport variants and factory)
  * src/frontend/src/hooks/useSineRecorder.ts (recorder state machine)

Machine effects (DOM events, network sends, media devices) are modelled as
explicit effect traces; asynchronous outcomes (promise resolution/rejection,
timeouts) are passed in as event parameters, following the single-threaded
cooperative scheduling model of the platform: each handler runs to completion.
-/

namespace Sine

/-! ## Codec negotiation (src/frontend/src/lib/codec.ts) -/

/-- Result record of codec negotiation (codec.ts, `CodecResult`). -/
structure CodecResult where
  mimeType : String
  codec : String
  isBestAvailable : Bool
deriving DecidableEq, Repr

/-- Ordered codec preference chain (codec.ts, `CODEC_CHAIN`): AV1 variants,
then VP9, then VP8, then the bare-container last resort. -/
def CODEC_CHAIN : List (String × String × Bool) :=
  [("video/webm;codecs=av01.0.08M.08", "av1", true),
   ("video/webm;codecs=av01", "av1", true),
   ("video/mp4;codecs=av01", "av1", true),
   ("video/webm;codecs=vp9,opus", "vp9", false),
   ("video/webm;codecs=vp9", "vp9", false),
   ("video/webm;codecs=vp8,opus", "vp8", false),
   ("video/webm;codecs=vp8", "vp8", false),
   ("video/webm", "webm", false)]

/-- Conversion of a chain entry to a `CodecResult` (the record literal built in
the loop body of `negotiateCodec`). -/
def entryResult (e : String × String × Bool) : CodecResult :=
  ⟨e.1, e.2.1, e.2.2⟩

/-- The last-resort selection returned when `MediaRecorder` is undefined or no
chain entry is supported (codec.ts, both early return and safety net). -/
def lastResortCodec : CodecResult :=
  ⟨"video/webm", "webm", false⟩

/-- Shallow embedding of `negotiateCodec` (codec.ts lines 49–64).
`mediaRecorderDefined` models `typeof MediaRecorder !== "undefined"` and
`isTypeSupported` models the `MediaRecorder.isTypeSupported` capability probe.
The source's `for` loop with early return is the first match of `find?`. -/
def negotiateCodec (mediaRecorderDefined : Bool) (isTypeSupported : String → Bool) :
    CodecResult :=
  if mediaRecorderDefined = false then lastResortCodec
  else
    match CODEC_CHAIN.find? (fun e => isTypeSupported e.1) with
    | some e => entryResult e
    | none => lastResortCodec

/-! ## Transport factory (src/frontend/src/lib/transport.ts, `createTransport`) -/

/-- The two transport variants (transport.ts, `TransportKind`). -/
inductive TransportKind
  | webtransport
  | websocket
deriving DecidableEq, Repr

/-- Outcome of racing `wt.ready` against the 3000 ms timeout promise
(transport.ts lines 268–273). `readyWithin3s`: the readiness promise resolves
first; `errorWithin3s`: it rejects first; `timeout3s`: neither settles within
the window, so the timeout rejection wins the race. -/
inductive WTRaceOutcome
  | readyWithin3s
  | errorWithin3s
  | timeout3s
deriving DecidableEq, Repr

/-- Environment of one `createTransport` call: platform support probe result,
whether the `WebTransportTransport` constructor throws synchronously, the
readiness race outcome, and the WebSocket readiness outcome (`none` means its
ready promise resolves; `some msg` means it rejects, including by its own
5000 ms timeout). -/
structure TransportEnv where
  wtSupported : Bool
  wtCtorThrows : Bool
  wtRace : WTRaceOutcome
  wsReady : Option String
deriving DecidableEq, Repr

/-- Constructor-invocation counts observed during one `createTransport` call. -/
structure TransportTrace where
  wtConstructions : ℕ
  wsConstructions : ℕ
deriving DecidableEq, Repr

/-- Shallow embedding of `createTransport` (transport.ts lines 263–289).
When the platform advertises WebTransport support, the low-latency variant is
constructed and its readiness raced against 3000 ms; a constructor throw, a
readiness rejection, or a timeout all land in the `catch` and fall through to
constructing the WebSocket variant, whose readiness is awaited with no further
fallback (its rejection propagates out of `createTransport`). -/
def createTransport (env : TransportEnv) : TransportTrace × Except String TransportKind :=
  if env.wtSupported then
    if env.wtCtorThrows = false ∧ env.wtRace = WTRaceOutcome.readyWithin3s then
      (⟨1, 0⟩, Except.ok TransportKind.webtransport)
    else
      match env.wsReady with
      | none => (⟨1, 1⟩, Except.ok TransportKind.websocket)
      | some msg => (⟨1, 1⟩, Except.error msg)
  else
    match env.wsReady with
    | none => (⟨0, 1⟩, Except.ok TransportKind.websocket)
    | some msg => (⟨0, 1⟩, Except.error msg)

/-! ## Smart-Stop trim (useSineRecorder.ts lines 36, 370–373) -/

/-- Dead-air trim constant: seconds removed from the end on Smart Stop
(useSineRecorder.ts line 36). -/
def SMART_STOP_TRIM_SECONDS : ℚ := 3 / 2

/-- Trim bound computed inside `stop()` (useSineRecorder.ts lines 371–373):
`smartStop ? Math.max(0, rawDuration - SMART_STOP_TRIM_SECONDS) : undefined`. -/
def computeTrimEnd (smartStop : Bool) (rawDuration : ℚ) : Option ℚ :=
  if smartStop then some (max 0 (rawDuration - SMART_STOP_TRIM_SECONDS)) else none

/-! ## Chunk handler (useSineRecorder.ts lines 312–333, `recorder.ondataavailable`) -/

/-- Delivery path taken by one emitted chunk: the transport layer when the
channel is open, else the per-chunk REST fallback. -/
inductive DeliveryPath
  | transport
  | rest
deriving DecidableEq, Repr

/-- One `dataavailable` emission from the encoder: the blob size and whether
`transport.isOpen()` evaluates true at processing time. -/
structure ChunkEvent where
  size : ℕ
  transportOpenNow : Bool
deriving DecidableEq, Repr

/-- One delivery observed by the sink: the assigned sequence number, the path
taken, and the payload size. -/
structure Delivery where
  seq : ℕ
  path : DeliveryPath
  size : ℕ
deriving DecidableEq, Repr

/-- Shallow embedding of the `ondataavailable` handler (useSineRecorder.ts
lines 312–333) acting on the `partNumberRef` counter: empty payloads return
immediately; otherwise the next sequence number is consumed from the shared
counter and the chunk is delivered on exactly one of the two paths. -/
def ondataavailable (partNumber : ℕ) (ev : ChunkEvent) : ℕ × List Delivery :=
  if ev.size = 0 then (partNumber, [])
  else
    if ev.transportOpenNow then
      (partNumber + 1, [⟨partNumber, DeliveryPath.transport, ev.size⟩])
    else
      (partNumber + 1, [⟨partNumber, DeliveryPath.rest, ev.size⟩])

/-- Sequential processing of a list of encoder emissions through the handler,
threading the shared counter and concatenating the delivery trace. -/
def runChunks (partNumber : ℕ) : List ChunkEvent → ℕ × List Delivery
  | [] => (partNumber, [])
  | ev :: rest =>
    let r1 := ondataavailable partNumber ev
    let r2 := runChunks r1.1 rest
    (r2.1, r1.2 ++ r2.2)

/-- Helper: the delivery trace of `runChunks` assigns consecutive sequence
numbers starting at the initial counter, in emission order, to exactly the
non-empty chunks, with the path dictated by the channel state at each event. -/
theorem runChunks_trace (evs : List ChunkEvent) : ∀ n : ℕ,
    (runChunks n evs).2.map Delivery.seq =
      List.range' n (evs.filter (fun e => e.size != 0)).length ∧
    (runChunks n evs).2.map (fun d => (d.path, d.size)) =
      (evs.filter (fun e => e.size != 0)).map
        (fun e => ((if e.transportOpenNow then DeliveryPath.transport else DeliveryPath.rest),
                   e.size)) ∧
    (runChunks n evs).1 = n + (evs.filter (fun e => e.size != 0)).length := by
  induction evs with
  | nil => intro n; simp [runChunks]
  | cons ev rest ih =>
    intro n
    by_cases hz : ev.size = 0
    · have h := ih n
      simp [runChunks, ondataavailable, hz, h.1, h.2.1, h.2.2]
    · have h := ih (n + 1)
      by_cases ho : ev.transportOpenNow
      · simp [runChunks, ondataavailable, hz, ho, h.1, h.2.1, h.2.2, List.range'_succ]
        omega
      · simp [runChunks, ondataavailable, hz, ho, h.1, h.2.1, h.2.2, List.range'_succ]
        omega

/-! ## Transport send paths (transport.ts, the two `SineTransport` variants) -/

/-- Platform WebSocket ready states. -/
inductive WsReadyState
  | CONNECTING
  | OPEN
  | CLOSING
  | CLOSED
deriving DecidableEq, Repr

/-- Frames enqueued on the WebSocket by the fallback variant. -/
inductive WsEffect
  | sendBinaryFrame
  | sendTextFrame
deriving DecidableEq, Repr

/-- Model of the platform primitive `WebSocket.send`: it throws an
InvalidStateError only while the socket is still CONNECTING; in CLOSING or
CLOSED states it silently discards the data. -/
def wsRawSend (st : WsReadyState) : Except String Unit :=
  if st = WsReadyState.CONNECTING then Except.error "InvalidStateError" else Except.ok ()

/-- Shallow embedding of `WebSocketTransport.sendBinary` (transport.ts lines
85–89): the send is attempted only behind a `readyState === OPEN` guard. -/
def wsSendBinary (st : WsReadyState) : Except String (List WsEffect) :=
  if st = WsReadyState.OPEN then
    match wsRawSend st with
    | Except.ok _ => Except.ok [WsEffect.sendBinaryFrame]
    | Except.error e => Except.error e
  else Except.ok []

/-- Shallow embedding of `WebSocketTransport.sendJSON` (transport.ts lines
91–95): serialize and send behind the same `readyState === OPEN` guard. -/
def wsSendJSON (st : WsReadyState) : Except String (List WsEffect) :=
  if st = WsReadyState.OPEN then
    match wsRawSend st with
    | Except.ok _ => Except.ok [WsEffect.sendTextFrame]
    | Except.error e => Except.error e
  else Except.ok []

/-- Mutable state of a `WebTransportTransport` instance relevant to its send
methods: the `_open` flag, whether `_init` acquired the unidirectional-stream
writer, and whether the datagram `WritableStream` is currently locked to a
writer. After a successful `_init` the channel starts with the stream writer
acquired and the datagram stream unlocked. -/
structure WTChannel where
  _open : Bool
  writerAcquired : Bool
  datagramWriterLocked : Bool
deriving DecidableEq, Repr

/-- Effects produced by the WebTransport variant's send methods. -/
inductive WTEffect
  | streamWrite
  | datagramWrite
  | errorReported (msg : String)
deriving DecidableEq, Repr

/-- Settlement of an asynchronously returned promise. -/
inductive AsyncOutcome
  | fulfilled
  | rejected
deriving DecidableEq, Repr

/-- Shallow embedding of `WebTransportTransport.sendBinary` (transport.ts
lines 204–210): `writer.write(...)` returns a promise whose rejection is
handled by the attached `.catch`, which reports through the error handler; the
synchronous call itself never throws. -/
def wtSendBinary (ch : WTChannel) (writeOutcome : AsyncOutcome) :
    Except String (List WTEffect) :=
  if ch.writerAcquired then
    match writeOutcome with
    | AsyncOutcome.fulfilled => Except.ok [WTEffect.streamWrite]
    | AsyncOutcome.rejected =>
        Except.ok [WTEffect.streamWrite, WTEffect.errorReported "WebTransport write failed"]
  else Except.ok []

/-- Model of the platform primitive `WritableStream.getWriter` on
`transport.datagrams.writable`: per the WHATWG Streams standard it throws a
TypeError synchronously when the stream is already locked to a writer, and
otherwise acquires the lock, which is held until the writer releases it. -/
def datagramsGetWriter (ch : WTChannel) : Except String WTChannel :=
  if ch.datagramWriterLocked then Except.error "TypeError: WritableStream locked"
  else Except.ok { ch with datagramWriterLocked := true }

/-- Shallow embedding of `WebTransportTransport.sendJSON` (transport.ts lines
212–223): it calls `this.transport.datagrams.writable.getWriter()` on every
invocation and never releases the acquired lock; a datagram-write rejection is
handled by the `.catch`, which falls back to `sendBinary` on the chunk
stream. -/
def wtSendJSON (ch : WTChannel) (datagramOutcome : AsyncOutcome)
    (fallbackOutcome : AsyncOutcome) : Except String (WTChannel × List WTEffect) :=
  match datagramsGetWriter ch with
  | Except.error e => Except.error e
  | Except.ok locked =>
    match datagramOutcome with
    | AsyncOutcome.fulfilled => Except.ok (locked, [WTEffect.datagramWrite])
    | AsyncOutcome.rejected =>
      match wtSendBinary locked fallbackOutcome with
      | Except.ok effs => Except.ok (locked, WTEffect.datagramWrite :: effs)
      | Except.error e => Except.error e

/-! ## Recorder state machine (src/frontend/src/hooks/useSineRecorder.ts) -/

/-- Lifecycle states (useSineRecorder.ts, `RecorderState`). -/
inductive RecorderState
  | idle
  | requesting
  | recording
  | stopping
  | complete
  | error
deriving DecidableEq, Repr

/-- Origin of a scene marker (useSineRecorder.ts, `SceneMarker.source`). -/
inductive MarkerSource
  | focus_switch
  | visibility
  | manual
deriving DecidableEq, Repr

/-- A scene marker (useSineRecorder.ts, `SceneMarker`): elapsed timestamp in
seconds, label, and source tag. -/
structure SceneMarker where
  timestamp : ℚ
  label : String
  source : MarkerSource
deriving DecidableEq, Repr

/-- Finalized video descriptor (lib/api.ts, `VideoResponse`, restricted to the
fields the recorder core produces; the wall-clock `created_at` string is
omitted). -/
structure VideoResponse where
  id : String
  title : Option String
  status : String
  duration : ℚ
  codec : Option String
  trim_start : Option ℚ
  trim_end : Option ℚ
  playback_url : String
deriving DecidableEq, Repr

/-- Hook options (useSineRecorder.ts, `UseSineRecorderOptions`), with the
defaults already applied. -/
structure RecorderOptions where
  chunkInterval : ℚ
  title : Option String
  smartStop : Bool
  sceneMarkers : Bool
  enableFaceBubble : Bool
deriving DecidableEq, Repr

/-- The option record with all defaults of the hook: chunkInterval 3000,
no title, smartStop on, sceneMarkers on, face bubble off. -/
def sineOpts : RecorderOptions :=
  ⟨3000, none, true, true, false⟩

/-- Observable session state: the React state fields plus the mutable refs of
the hook. Resource handles (`streamRef`, `faceStreamRef`, `transportRef`,
`recorderRef`, `timerRef`) are modelled as held/active flags. `uploadInfo`
models `uploadInfoRef.current?.video_id`. Times are wall-clock milliseconds. -/
structure SessionState where
  state : RecorderState
  error : Option String
  duration : ℚ
  videoId : Option String
  completedVideo : Option VideoResponse
  codec : Option CodecResult
  transportKind : Option TransportKind
  markers : List SceneMarker
  streamHeld : Bool
  faceStreamHeld : Bool
  transportHeld : Bool
  transportOpen : Bool
  recorderActive : Bool
  timerActive : Bool
  partNumber : ℕ
  startTime : ℤ
  lastMarkerTime : ℤ
  uploadInfo : Option String
deriving DecidableEq, Repr

/-- Initial hook state: all `useState` initializers and `useRef` initial
values (state "idle", `partNumberRef` starts at 1). -/
def initialSession : SessionState :=
  ⟨RecorderState.idle, none, 0, none, none, none, none, [],
   false, false, false, false, false, false, 1, 0, 0, none⟩

/-- External side effects the recorder performs. `apiAbort` records whether
the underlying abort call failed, which the code swallows. -/
inductive Effect
  | clearTimer
  | stopRecorder
  | stopStreamTracks
  | stopFaceStreamTracks
  | closeTransport
  | apiStart (title : Option String) (codec : String)
  | sendMarkerJSON (m : SceneMarker)
  | sendCompleteJSON (duration : ℚ) (trim_end : Option ℚ)
  | restComplete (videoId : String) (duration : ℚ) (trim_end : Option ℚ)
  | apiAbort (videoId : String) (failed : Bool)
deriving DecidableEq, Repr

/-- Shallow embedding of the `cleanup` callback (useSineRecorder.ts lines
127–150): clear the duration timer, stop a non-inactive recorder, stop all
tracks of both device streams, close the transport, and null the refs. -/
def cleanup (s : SessionState) : SessionState × List Effect :=
  let e1 : List Effect := if s.timerActive then [Effect.clearTimer] else []
  let e2 : List Effect := if s.recorderActive then [Effect.stopRecorder] else []
  let e3 : List Effect := if s.streamHeld then [Effect.stopStreamTracks] else []
  let e4 : List Effect := if s.faceStreamHeld then [Effect.stopFaceStreamTracks] else []
  let e5 : List Effect := if s.transportHeld then [Effect.closeTransport] else []
  ({ s with timerActive := false, recorderActive := false, streamHeld := false,
            faceStreamHeld := false, transportHeld := false, transportOpen := false },
   e1 ++ e2 ++ e3 ++ e4 ++ e5)

/-- Outcomes of the awaited steps of one uninterrupted `start()` run: the
negotiated codec, whether `getUserMedia` resolves for the primary and the face
stream, the session id returned by `apiStartRecording` (`none` models a
rejection), the kind selected by `createTransport` (`none` models a
rejection), and the wall-clock start instant in milliseconds. -/
structure StartOutcome where
  negotiated : CodecResult
  deviceOk : Bool
  faceOk : Bool
  sessionId : Option String
  transKind : Option TransportKind
  now : ℤ
deriving DecidableEq, Repr

/-- Shallow embedding of `start()` (useSineRecorder.ts lines 257–357), run to
completion without interleaving. The synchronous prologue resets error,
duration, completed video, markers, the chunk counter and the marker debounce
clock, and stores the negotiated codec; each later failure lands in the
`catch`, which records a message, moves to `error` and runs `cleanup`. The
concrete message abstracts the thrown error's text. -/
def startStep (opts : RecorderOptions) (s : SessionState) (o : StartOutcome) :
    SessionState × List Effect :=
  let s0 := { s with state := RecorderState.requesting, error := none, duration := 0,
                     completedVideo := none, markers := [], partNumber := 1,
                     lastMarkerTime := 0, codec := some o.negotiated }
  if o.deviceOk = false then
    let s1 := { s0 with error := some "Failed to start recording",
                        state := RecorderState.error }
    let c := cleanup s1
    (c.1, c.2)
  else
    let s1 := { s0 with streamHeld := true }
    let s2 := if opts.enableFaceBubble && o.faceOk then { s1 with faceStreamHeld := true }
              else s1
    match o.sessionId with
    | none =>
      let s3 := { s2 with error := some "Failed to start recording",
                          state := RecorderState.error }
      let c := cleanup s3
      (c.1, Effect.apiStart opts.title o.negotiated.codec :: c.2)
    | some vid =>
      let s3 := { s2 with uploadInfo := some vid, videoId := some vid }
      match o.transKind with
      | none =>
        let s4 := { s3 with error := some "Failed to start recording",
                            state := RecorderState.error }
        let c := cleanup s4
        (c.1, Effect.apiStart opts.title o.negotiated.codec :: c.2)
      | some k =>
        let s4 := { s3 with transportHeld := true, transportOpen := true,
                            transportKind := some k, recorderActive := true,
                            timerActive := true, startTime := o.now,
                            state := RecorderState.recording }
        (s4, [Effect.apiStart opts.title o.negotiated.codec])

/-- Reply observed while `stop()` waits for the structured completion
acknowledgment over the open transport: the ack fields, or a transport error
or the 15000 ms timeout. -/
inductive TransportReply
  | ack (status : String) (playback_url : String)
  | failure (msg : String)
deriving DecidableEq, Repr

/-- Reply of the REST `apiCompleteRecording` fallback. -/
inductive RestReply
  | ok (resp : VideoResponse)
  | failure (msg : String)
deriving DecidableEq, Repr

/-- Environment of one `stop()` run: the wall-clock instant and whichever
completion reply the taken path observes. -/
structure StopEnv where
  now : ℤ
  transportReply : TransportReply
  restReply : RestReply
deriving DecidableEq, Repr

/-- Shallow embedding of `stop()` (useSineRecorder.ts lines 361–442): a no-op
unless recording; otherwise capture the raw duration, compute the Smart-Stop
bound, stop the encoder, send the completion either over the open transport or
through the REST fallback, record the finalized descriptor or the error, and
run `cleanup` in the `finally` block on every path. The source reads
`uploadInfo!.video_id` under a non-null assertion, modelled by `getD ""`. -/
def stopStep (opts : RecorderOptions) (s : SessionState) (env : StopEnv) :
    SessionState × List Effect :=
  if s.state ≠ RecorderState.recording then (s, [])
  else
    let rawDuration := ((env.now - s.startTime : ℤ) : ℚ) / 1000
    let trimEnd := computeTrimEnd opts.smartStop rawDuration
    let s1 := { s with state := RecorderState.stopping, duration := rawDuration }
    let recEff : List Effect := if s1.recorderActive then [Effect.stopRecorder] else []
    if s1.transportHeld && s1.transportOpen then
      match env.transportReply with
      | TransportReply.ack status url =>
        let result : VideoResponse :=
          ⟨s1.uploadInfo.getD "", opts.title, status, rawDuration,
           s1.codec.map CodecResult.codec, none, trimEnd, url⟩
        let s2 := { s1 with completedVideo := some result,
                            state := RecorderState.complete }
        let c := cleanup s2
        (c.1, recEff ++ [Effect.sendCompleteJSON rawDuration trimEnd] ++ c.2)
      | TransportReply.failure msg =>
        let s2 := { s1 with error := some msg, state := RecorderState.error }
        let c := cleanup s2
        (c.1, recEff ++ [Effect.sendCompleteJSON rawDuration trimEnd] ++ c.2)
    else
      match env.restReply with
      | RestReply.ok resp =>
        let s2 := { s1 with completedVideo := some resp,
                            state := RecorderState.complete }
        let c := cleanup s2
        (c.1, recEff ++ [Effect.restComplete (s1.uploadInfo.getD "") rawDuration trimEnd]
              ++ c.2)
      | RestReply.failure msg =>
        let s2 := { s1 with error := some msg, state := RecorderState.error }
        let c := cleanup s2
        (c.1, recEff ++ [Effect.restComplete (s1.uploadInfo.getD "") rawDuration trimEnd]
              ++ c.2)

/-- Shallow embedding of `cancel()` (useSineRecorder.ts lines 446–460): run
`cleanup`, best-effort abort the server-side session when one was created
(the call's failure is swallowed by the empty `catch`), then reset state to
idle, duration to 0, the video id to null and markers to empty. -/
def cancelStep (s : SessionState) (abortFails : Bool) : SessionState × List Effect :=
  let c := cleanup s
  let abortEffs : List Effect :=
    match c.1.uploadInfo with
    | some vid => [Effect.apiAbort vid abortFails]
    | none => []
  ({ c.1 with state := RecorderState.idle, duration := 0, videoId := none, markers := [] },
   c.2 ++ abortEffs)

/-- Scene-marker debounce window in milliseconds (useSineRecorder.ts line 39). -/
def MARKER_DEBOUNCE_MS : ℤ := 2000

/-- Shallow embedding of the `handleFocus` listener (useSineRecorder.ts lines
171–185), which is attached only while recording with markers enabled:
discard the event inside the debounce window, else record the instant, append
the marker and push it over the transport when the channel is open. -/
def focusStep (opts : RecorderOptions) (s : SessionState) (now : ℤ) :
    SessionState × List Effect :=
  if s.state ≠ RecorderState.recording ∨ opts.sceneMarkers = false then (s, [])
  else if now - s.lastMarkerTime < MARKER_DEBOUNCE_MS then (s, [])
  else
    let elapsed := ((now - s.startTime : ℤ) : ℚ) / 1000
    let m : SceneMarker := ⟨elapsed, "Switched to Sine", MarkerSource.focus_switch⟩
    ({ s with lastMarkerTime := now, markers := s.markers ++ [m] },
     if s.transportHeld && s.transportOpen then [Effect.sendMarkerJSON m] else [])

/-- Shallow embedding of the `handleVisibility` listener (useSineRecorder.ts
lines 187–203): same as focus but gated on the document becoming visible,
with its own label and source tag. -/
def visibilityStep (opts : RecorderOptions) (s : SessionState) (now : ℤ)
    (visible : Bool) : SessionState × List Effect :=
  if s.state ≠ RecorderState.recording ∨ opts.sceneMarkers = false then (s, [])
  else if visible = false then (s, [])
  else if now - s.lastMarkerTime < MARKER_DEBOUNCE_MS then (s, [])
  else
    let elapsed := ((now - s.startTime : ℤ) : ℚ) / 1000
    let m : SceneMarker := ⟨elapsed, "Tab became visible", MarkerSource.visibility⟩
    ({ s with lastMarkerTime := now, markers := s.markers ++ [m] },
     if s.transportHeld && s.transportOpen then [Effect.sendMarkerJSON m] else [])

/-- Shallow embedding of `addManualMarker` (useSineRecorder.ts lines 216–230):
valid only while recording; appends unconditionally — it neither consults nor
updates the debounce clock. -/
def addManualMarker (s : SessionState) (now : ℤ) (label : String) :
    SessionState × List Effect :=
  if s.state ≠ RecorderState.recording then (s, [])
  else
    let elapsed := ((now - s.startTime : ℤ) : ℚ) / 1000
    let m : SceneMarker := ⟨elapsed, label, MarkerSource.manual⟩
    ({ s with markers := s.markers ++ [m] },
     if s.transportHeld && s.transportOpen then [Effect.sendMarkerJSON m] else [])

/-- Events driving the recorder: the four commands plus the two auto-detected
marker signals, each bundled with the outcomes of its awaited operations. -/
inductive SessionEvent
  | startEv (o : StartOutcome)
  | stopEv (env : StopEnv)
  | cancelEv (abortFails : Bool)
  | focusEv (now : ℤ)
  | visibilityEv (now : ℤ) (visible : Bool)
  | manualMarkerEv (now : ℤ) (label : String)
deriving DecidableEq, Repr

/-- Dispatch of one event to the corresponding operation. -/
def stepSession (opts : RecorderOptions) (s : SessionState) :
    SessionEvent → SessionState × List Effect
  | SessionEvent.startEv o => startStep opts s o
  | SessionEvent.stopEv env => stopStep opts s env
  | SessionEvent.cancelEv b => cancelStep s b
  | SessionEvent.focusEv now => focusStep opts s now
  | SessionEvent.visibilityEv now v => visibilityStep opts s now v
  | SessionEvent.manualMarkerEv now label => addManualMarker s now label

/-- Sequential execution of a list of events from a given state, accumulating
the effect trace. -/
def runSession (opts : RecorderOptions) (s : SessionState) :
    List SessionEvent → SessionState × List Effect
  | [] => (s, [])
  | e :: rest =>
    let r1 := stepSession opts s e
    let r2 := runSession opts r1.1 rest
    (r2.1, r1.2 ++ r2.2)

/-! ## Fixtures used by concrete runs -/

/-- A fully successful `start()` outcome: VP9 negotiated, both device streams
granted, session id assigned, WebSocket transport selected, start instant
1 000 000 ms. -/
def goodStart : StartOutcome :=
  ⟨⟨"video/webm;codecs=vp9,opus", "vp9", false⟩, true, true,
   some "vid-1", some TransportKind.websocket, 1000000⟩

/-- The session state reached by a successful `start()` from the initial
state under the default options. -/
def recordingFixture : SessionState :=
  (startStep sineOpts initialSession goodStart).1

/-! ## Claim theorems -/

/-- C1: for every recording session and every sequence of encoder emissions,
the chunk sequence counter is reset to 1 by `start()`, each non-empty emitted
chunk is assigned the next sequence number in emission order — so the delivery
sink observes exactly 1..N — and deliveries occur in emission order regardless
of how delivery alternated between the transport path and the REST fallback
path. -/
theorem chunk_sequence_numbers (opts : RecorderOptions) (s : SessionState)
    (o : StartOutcome) (evs : List ChunkEvent) :
    (startStep opts s o).1.partNumber = 1 ∧
    (runChunks 1 evs).2.map Delivery.seq =
      List.range' 1 (evs.filter (fun e => e.size != 0)).length ∧
    (runChunks 1 evs).2.map (fun d => (d.path, d.size)) =
      (evs.filter (fun e => e.size != 0)).map
        (fun e => ((if e.transportOpenNow then DeliveryPath.transport else DeliveryPath.rest),
                   e.size)) := by
  refine ⟨?_, (runChunks_trace evs 1).1, (runChunks_trace evs 1).2.1⟩
  unfold startStep cleanup
  rcases o with ⟨neg, dev, face, sess, tk, now⟩
  cases dev <;> cases sess <;> try cases tk
  all_goals ((try split_ifs) <;> simp)

/-- C10: an encoder emission with an empty payload returns immediately — the
shared part counter is unchanged and no delivery is attempted on either path —
while a non-empty emission consumes exactly the next sequence number and is
delivered on the path selected by the channel state, both paths drawing from
the same counter. -/
theorem empty_chunk_no_delivery (n : ℕ) (ev : ChunkEvent) :
    (ev.size = 0 → ondataavailable n ev = (n, [])) ∧
    (ev.size ≠ 0 → ondataavailable n ev =
      (n + 1, [⟨n, (if ev.transportOpenNow then DeliveryPath.transport else DeliveryPath.rest),
                ev.size⟩])) := by
  constructor
  · intro h
    simp [ondataavailable, h]
  · intro h
    by_cases ho : ev.transportOpenNow <;> simp [ondataavailable, h, ho]

/-- Witness for C10 at concrete inputs: a zero-byte chunk leaves the counter
at 5 with no delivery; a 7-byte chunk with the channel closed takes sequence
number 5 on the REST path and advances the counter to 6. -/
theorem empty_chunk_no_delivery_witness :
    ondataavailable 5 ⟨0, true⟩ = (5, []) ∧
    ondataavailable 5 ⟨7, false⟩ = (6, [⟨5, DeliveryPath.rest, 7⟩]) := by
  constructor
  · exact (empty_chunk_no_delivery 5 ⟨0, true⟩).1 rfl
  · have h := (empty_chunk_no_delivery 5 ⟨7, false⟩).2 (by decide)
    simpa using h

/-- C3: on `stop()` from recording with raw duration ≥ 0, the Smart-Stop
bound is `max 0 (rawDuration − 1.5)` when enabled — 8.5 for raw duration 10,
clamped to 0 for raw duration 1 — always satisfies 0 ≤ trimEnd ≤ rawDuration,
and is undefined when Smart-Stop is disabled. -/
theorem smart_stop_trim (rawDuration : ℚ) (h : 0 ≤ rawDuration) :
    computeTrimEnd true rawDuration = some (max 0 (rawDuration - 3 / 2)) ∧
    computeTrimEnd true 10 = some (17 / 2) ∧
    computeTrimEnd true 1 = some 0 ∧
    (∀ t, computeTrimEnd true rawDuration = some t → 0 ≤ t ∧ t ≤ rawDuration) ∧
    computeTrimEnd false rawDuration = none := by
  refine ⟨rfl, by norm_num [computeTrimEnd, SMART_STOP_TRIM_SECONDS], ?_, ?_, rfl⟩
  · norm_num [computeTrimEnd, SMART_STOP_TRIM_SECONDS]
  · intro t ht
    simp only [computeTrimEnd, if_pos] at ht
    have : t = max 0 (rawDuration - SMART_STOP_TRIM_SECONDS) := by
      simpa using ht.symm
    subst this
    refine ⟨le_max_left _ _, max_le h ?_⟩
    have : (0 : ℚ) < SMART_STOP_TRIM_SECONDS := by norm_num [SMART_STOP_TRIM_SECONDS]
    linarith

/-- Witness for C3 at raw duration 10: the trim bound is 8.5, within
[0, 10], and absent when Smart-Stop is disabled. -/
theorem smart_stop_trim_witness :
    computeTrimEnd true 10 = some (17 / 2) ∧ computeTrimEnd false 10 = none := by
  have h := smart_stop_trim 10 (by norm_num)
  exact ⟨h.2.1, h.2.2.2.2⟩

/-- C7: `stop()` called in any state other than recording (idle, requesting,
complete, error — and stopping) is a no-op: the session state is unchanged and
no effect is produced. -/
theorem stop_noop_outside_recording (opts : RecorderOptions) (s : SessionState)
    (env : StopEnv) (h : s.state ≠ RecorderState.recording) :
    stepSession opts s (SessionEvent.stopEv env) = (s, []) := by
  simp [stepSession, stopStep, h]

/-- Witness for C7: a stop event in the initial idle state changes nothing
and produces no effect. -/
theorem stop_noop_outside_recording_witness :
    stepSession sineOpts initialSession
      (SessionEvent.stopEv ⟨5000, TransportReply.failure "x", RestReply.failure "x"⟩) =
      (initialSession, []) :=
  stop_noop_outside_recording sineOpts initialSession
    ⟨5000, TransportReply.failure "x", RestReply.failure "x"⟩ (by decide)

/-- C2: the factory constructs the WebTransport variant only when the
platform advertises support (zero constructions otherwise) and exactly once
when it does; on a constructor throw, a readiness rejection, or the 3-second
race timing out, it constructs the WebSocket fallback exactly once and awaits
its readiness with no further fallback — the fallback's own rejection
propagates; and when the WebTransport race succeeds, no fallback is built. -/
theorem transport_selector_policy (env : TransportEnv) :
    (env.wtSupported = false → (createTransport env).1.wtConstructions = 0) ∧
    (env.wtSupported = true → (createTransport env).1.wtConstructions = 1) ∧
    (env.wtSupported = true →
      (env.wtCtorThrows = true ∨ env.wtRace ≠ WTRaceOutcome.readyWithin3s) →
      (createTransport env).1.wsConstructions = 1 ∧
      (env.wsReady = none →
        (createTransport env).2 = Except.ok TransportKind.websocket) ∧
      (∀ msg, env.wsReady = some msg → (createTransport env).2 = Except.error msg)) ∧
    (env.wtSupported = true → env.wtCtorThrows = false →
      env.wtRace = WTRaceOutcome.readyWithin3s →
      (createTransport env).2 = Except.ok TransportKind.webtransport ∧
      (createTransport env).1.wsConstructions = 0) := by
  rcases env with ⟨sup, thr, race, wsr⟩
  cases sup <;> cases thr <;> cases race <;> cases wsr <;>
    simp [createTransport]

/-- Witness for C2: with WebTransport supported but its readiness racing into
the 3-second timeout and a healthy WebSocket, the factory builds the fallback
exactly once and returns it. -/
theorem transport_selector_policy_witness :
    (createTransport ⟨true, false, WTRaceOutcome.timeout3s, none⟩).1.wsConstructions = 1 ∧
    (createTransport ⟨true, false, WTRaceOutcome.timeout3s, none⟩).2 =
      Except.ok TransportKind.websocket ∧
    (createTransport ⟨false, false, WTRaceOutcome.timeout3s, none⟩).1.wtConstructions = 0 := by
  have h := transport_selector_policy ⟨true, false, WTRaceOutcome.timeout3s, none⟩
  have h2 := h.2.2.1 rfl (Or.inr (by decide))
  have h0 := transport_selector_policy ⟨false, false, WTRaceOutcome.timeout3s, none⟩
  exact ⟨h2.1, h2.2.1 rfl, h0.1 rfl⟩

/-- C5 (code bug): the claimed no-throw contract of the send methods fails
for repeated `sendJSON` calls on the WebTransport variant. The first call on a
ready channel succeeds but leaves the datagram `WritableStream` locked to a
writer that is never released, so the second call's `getWriter()` throws a
TypeError synchronously to the caller instead of reporting asynchronously.
The remaining conjuncts show every other send path honors the contract:
both WebSocket sends and the WebTransport binary send never throw in any
channel state. -/
theorem wt_sendJSON_repeated_call_throws :
    wtSendJSON ⟨true, true, false⟩ AsyncOutcome.fulfilled AsyncOutcome.fulfilled =
      Except.ok (⟨true, true, true⟩, [WTEffect.datagramWrite]) ∧
    wtSendJSON ⟨true, true, true⟩ AsyncOutcome.fulfilled AsyncOutcome.fulfilled =
      Except.error "TypeError: WritableStream locked" ∧
    (∀ st : WsReadyState, ∃ effs, wsSendBinary st = Except.ok effs) ∧
    (∀ st : WsReadyState, ∃ effs, wsSendJSON st = Except.ok effs) ∧
    (∀ (ch : WTChannel) (o : AsyncOutcome), ∃ effs, wtSendBinary ch o = Except.ok effs) := by
  refine ⟨rfl, rfl, ?_, ?_, ?_⟩
  · intro st
    cases st <;> exact ⟨_, rfl⟩
  · intro st
    cases st <;> exact ⟨_, rfl⟩
  · intro ch o
    rcases ch with ⟨op, w, l⟩
    cases w <;> cases o <;> exact ⟨_, rfl⟩

/-- C9: from any non-idle state, `cancel()` ends in idle with duration 0, the
session identifier cleared and markers emptied; it releases both device
streams and closes any held transport; it notifies the external abort
collaborator exactly when a server-side session exists; and an abort failure
is swallowed — the resulting local state is identical whether the abort call
fails or succeeds. -/
theorem cancel_protocol (s : SessionState) (b : Bool)
    (_h : s.state ≠ RecorderState.idle) :
    (cancelStep s b).1.state = RecorderState.idle ∧
    (cancelStep s b).1.duration = 0 ∧
    (cancelStep s b).1.videoId = none ∧
    (cancelStep s b).1.markers = [] ∧
    (cancelStep s b).1.streamHeld = false ∧
    (cancelStep s b).1.faceStreamHeld = false ∧
    (cancelStep s b).1.transportHeld = false ∧
    (s.streamHeld = true → Effect.stopStreamTracks ∈ (cancelStep s b).2) ∧
    (s.transportHeld = true → Effect.closeTransport ∈ (cancelStep s b).2) ∧
    (∀ vid, s.uploadInfo = some vid → Effect.apiAbort vid b ∈ (cancelStep s b).2) ∧
    (cancelStep s true).1 = (cancelStep s false).1 := by
  refine ⟨rfl, rfl, rfl, rfl, rfl, rfl, rfl, ?_, ?_, ?_, rfl⟩
  · intro hs
    simp [cancelStep, cleanup, hs]
  · intro ht
    simp [cancelStep, cleanup, ht]
  · intro vid hv
    simp [cancelStep, cleanup, hv]

/-- Witness for C9: cancelling from the recording fixture (with a failing
abort call) lands in idle with everything cleared, and the abort of session
"vid-1" appears in the effect trace. -/
theorem cancel_protocol_witness :
    (cancelStep recordingFixture true).1.state = RecorderState.idle ∧
    (cancelStep recordingFixture true).1.videoId = none ∧
    (cancelStep recordingFixture true).1.markers = [] ∧
    Effect.apiAbort "vid-1" true ∈ (cancelStep recordingFixture true).2 := by
  have h := cancel_protocol recordingFixture true (by decide)
  exact ⟨h.1, h.2.2.1, h.2.2.2.1, h.2.2.2.2.2.2.2.2.2.1 "vid-1" (by decide)⟩

/-- Helper: `find?` returns the head of the suffix when every element before
it fails the predicate and it satisfies it. -/
theorem find?_append_first {α : Type} (p : α → Bool) (pre post : List α) (e : α)
    (hpre : ∀ x ∈ pre, p x = false) (he : p e = true) :
    (pre ++ e :: post).find? p = some e := by
  induction pre with
  | nil => simp [List.find?, he]
  | cons a t ih =>
    have ha := hpre a (by simp)
    have ht : ∀ x ∈ t, p x = false := fun x hx => hpre x (by simp [hx])
    simp [List.find?, ha, ih ht]

/-- C4: for every capability probe, `negotiateCodec` returns the first entry
of the fixed preference chain the probe reports supported; when the
media-recording capability cannot be queried at all it returns the last-resort
entry with `isBestAvailable = false`; when no entry is supported it returns
the same last resort; and being a total function it never throws. -/
theorem negotiateCodec_first_supported (probe : String → Bool) :
    (negotiateCodec false probe = lastResortCodec ∧
       lastResortCodec.isBestAvailable = false) ∧
    ((∀ e ∈ CODEC_CHAIN, probe e.1 = false) →
       negotiateCodec true probe = lastResortCodec) ∧
    (∀ pre e post, CODEC_CHAIN = pre ++ e :: post →
       (∀ x ∈ pre, probe x.1 = false) → probe e.1 = true →
       negotiateCodec true probe = entryResult e) := by
  refine ⟨⟨rfl, rfl⟩, ?_, ?_⟩
  · intro hall
    have hn : CODEC_CHAIN.find? (fun e => probe e.1) = none := by
      rw [List.find?_eq_none]
      intro x hx
      simp [hall x hx]
    simp [negotiateCodec, hn]
  · intro pre e post hchain hpre he
    have hf : CODEC_CHAIN.find? (fun x => probe x.1) = some e := by
      rw [hchain]
      exact find?_append_first _ pre post e (fun x hx => hpre x hx) he
    simp [negotiateCodec, hf]

/-- Witness for C4: a probe supporting exactly the "vp9,opus" entry makes
negotiation skip the three unsupported AV1 entries and return that first
supported entry. -/
theorem negotiateCodec_first_supported_witness :
    negotiateCodec true (fun s => s == "video/webm;codecs=vp9,opus") =
      ⟨"video/webm;codecs=vp9,opus", "vp9", false⟩ := by
  have h := (negotiateCodec_first_supported
      (fun s => s == "video/webm;codecs=vp9,opus")).2.2
    [("video/webm;codecs=av01.0.08M.08", "av1", true),
     ("video/webm;codecs=av01", "av1", true),
     ("video/mp4;codecs=av01", "av1", true)]
    ("video/webm;codecs=vp9,opus", "vp9", false)
    [("video/webm;codecs=vp9", "vp9", false),
     ("video/webm;codecs=vp8,opus", "vp8", false),
     ("video/webm;codecs=vp8", "vp8", false),
     ("video/webm", "webm", false)]
    (by decide) (by decide) (by decide)
  simpa [entryResult] using h

/-- C6: while recording with markers enabled, an auto-detected focus or
visibility signal inside the 2000 ms debounce window is discarded entirely; a
signal at or beyond the window appends its marker and updates the last-marker
clock; a manual marker is appended unconditionally without touching the
debounce clock; and concretely, two focus signals 500 ms apart yield one
marker, 2500 ms apart yield two, and a manual marker 10 ms after an auto
marker is never suppressed. -/
theorem marker_debounce (opts : RecorderOptions) (s : SessionState) (now : ℤ)
    (hrec : s.state = RecorderState.recording) (hm : opts.sceneMarkers = true) :
    (now - s.lastMarkerTime < MARKER_DEBOUNCE_MS →
       focusStep opts s now = (s, []) ∧ visibilityStep opts s now true = (s, [])) ∧
    (MARKER_DEBOUNCE_MS ≤ now - s.lastMarkerTime →
       (focusStep opts s now).1.markers =
         s.markers ++ [⟨((now - s.startTime : ℤ) : ℚ) / 1000, "Switched to Sine",
                        MarkerSource.focus_switch⟩] ∧
       (focusStep opts s now).1.lastMarkerTime = now ∧
       (visibilityStep opts s now true).1.markers =
         s.markers ++ [⟨((now - s.startTime : ℤ) : ℚ) / 1000, "Tab became visible",
                        MarkerSource.visibility⟩] ∧
       (visibilityStep opts s now true).1.lastMarkerTime = now) ∧
    ((addManualMarker s now "Manual marker").1.markers =
       s.markers ++ [⟨((now - s.startTime : ℤ) : ℚ) / 1000, "Manual marker", MarkerSource.manual⟩] ∧
     (addManualMarker s now "Manual marker").1.lastMarkerTime = s.lastMarkerTime) ∧
    (runSession sineOpts recordingFixture
       [SessionEvent.focusEv 1005000, SessionEvent.focusEv 1005500]).1.markers.length = 1 ∧
    (runSession sineOpts recordingFixture
       [SessionEvent.focusEv 1005000, SessionEvent.focusEv 1007500]).1.markers.length = 2 ∧
    (runSession sineOpts recordingFixture
       [SessionEvent.focusEv 1005000,
        SessionEvent.manualMarkerEv 1005010 "Manual marker"]).1.markers.length = 2 ∧
    (runSession sineOpts recordingFixture
       [SessionEvent.visibilityEv 1005000 true,
        SessionEvent.visibilityEv 1005500 true]).1.markers.length = 1 ∧
    (runSession sineOpts recordingFixture
       [SessionEvent.visibilityEv 1005000 true,
        SessionEvent.visibilityEv 1007500 true]).1.markers.length = 2 := by
  refine ⟨?_, ?_, ?_, by decide, by decide, by decide, by decide, by decide⟩
  · intro hlt
    constructor <;> simp [focusStep, visibilityStep, hrec, hm, hlt]
  · intro hge
    have hnlt : ¬ (now - s.lastMarkerTime < MARKER_DEBOUNCE_MS) := not_lt.mpr hge
    refine ⟨?_, ?_, ?_, ?_⟩ <;> simp [focusStep, visibilityStep, hrec, hm, hnlt]
  · constructor <;> simp [addManualMarker, hrec]

/-- Witness for C6: in the recording fixture, a focus signal 500 ms after an
accepted one is a strict no-op, the concrete focus scenario has the claimed
marker count, and a visibility signal beyond the window appends its marker
and updates the debounce clock. -/
theorem marker_debounce_witness :
    focusStep sineOpts (runSession sineOpts recordingFixture
        [SessionEvent.focusEv 1005000]).1 1005500 =
      ((runSession sineOpts recordingFixture [SessionEvent.focusEv 1005000]).1, []) ∧
    (runSession sineOpts recordingFixture
       [SessionEvent.focusEv 1005000, SessionEvent.focusEv 1005500]).1.markers.length = 1 ∧
    (visibilityStep sineOpts recordingFixture 1005000 true).1.markers =
      recordingFixture.markers ++
        [⟨((1005000 - recordingFixture.startTime : ℤ) : ℚ) / 1000, "Tab became visible",
          MarkerSource.visibility⟩] ∧
    (visibilityStep sineOpts recordingFixture 1005000 true).1.lastMarkerTime = 1005000 := by
  have h := marker_debounce sineOpts
      (runSession sineOpts recordingFixture [SessionEvent.focusEv 1005000]).1 1005500
      (by decide) (by decide)
  have hv := (marker_debounce sineOpts recordingFixture 1005000
      (by decide) (by decide)).2.1 (by decide)
  exact ⟨(h.1 (by decide)).1, h.2.2.2.1, hv.2.2.1, hv.2.2.2⟩

/-- Session invariant behind the corrected C8: in the recording, stopping and
complete states the codec and transport kind are recorded. -/
def SessionInv (s : SessionState) : Prop :=
  (s.state = RecorderState.recording ∨ s.state = RecorderState.stopping ∨
     s.state = RecorderState.complete) →
  s.codec ≠ none ∧ s.transportKind ≠ none

/-- Helper: `cleanup` touches only resource flags, not the codec, transport
kind or lifecycle state. -/
theorem cleanup_fields (s : SessionState) :
    (cleanup s).1.codec = s.codec ∧ (cleanup s).1.transportKind = s.transportKind ∧
    (cleanup s).1.state = s.state := by
  simp [cleanup]

/-- Helper: every event preserves the session invariant. -/
theorem stepSession_inv (opts : RecorderOptions) (s : SessionState)
    (e : SessionEvent) (h : SessionInv s) : SessionInv (stepSession opts s e).1 := by
  cases e with
  | startEv o =>
    rcases o with ⟨neg, dev, face, sess, tk, now⟩
    cases dev <;> cases sess <;> try cases tk
    all_goals {
      intro hst
      constructor <;>
        simp [stepSession, startStep, cleanup] at hst ⊢ <;>
        first
          | (intro hc; rw [hc] at hst; revert hst; (try split_ifs) <;> simp)
          | ((try split_ifs) <;> simp_all)
    }
  | stopEv env =>
    by_cases hrec : s.state = RecorderState.recording
    · have hc := (h (Or.inl hrec)).1
      have ht := (h (Or.inl hrec)).2
      intro _
      rcases env with ⟨now, trep, rrep⟩
      cases trep <;> cases rrep <;>
        simp [stepSession, stopStep, hrec, cleanup] at hc ht ⊢ <;>
        (try split_ifs) <;> simp_all
    · have hid : (stepSession opts s (SessionEvent.stopEv env)).1 = s := by
        simp [stepSession, stopStep, hrec]
      rw [hid]
      exact h
  | cancelEv b =>
    intro hst
    simp [stepSession, cancelStep, cleanup] at hst
  | focusEv now =>
    intro hst
    have : (stepSession opts s (SessionEvent.focusEv now)).1.codec = s.codec ∧
        (stepSession opts s (SessionEvent.focusEv now)).1.transportKind = s.transportKind ∧
        (stepSession opts s (SessionEvent.focusEv now)).1.state = s.state := by
      simp only [stepSession, focusStep]
      (try split_ifs) <;> simp
    rw [this.1, this.2.1]
    exact h (by rw [← this.2.2]; exact hst)
  | visibilityEv now v =>
    intro hst
    have : (stepSession opts s (SessionEvent.visibilityEv now v)).1.codec = s.codec ∧
        (stepSession opts s (SessionEvent.visibilityEv now v)).1.transportKind =
          s.transportKind ∧
        (stepSession opts s (SessionEvent.visibilityEv now v)).1.state = s.state := by
      simp only [stepSession, visibilityStep]
      (try split_ifs) <;> simp
    rw [this.1, this.2.1]
    exact h (by rw [← this.2.2]; exact hst)
  | manualMarkerEv now label =>
    intro hst
    have : (stepSession opts s (SessionEvent.manualMarkerEv now label)).1.codec = s.codec ∧
        (stepSession opts s (SessionEvent.manualMarkerEv now label)).1.transportKind =
          s.transportKind ∧
        (stepSession opts s (SessionEvent.manualMarkerEv now label)).1.state = s.state := by
      simp only [stepSession, addManualMarker]
      (try split_ifs) <;> simp
    rw [this.1, this.2.1]
    exact h (by rw [← this.2.2]; exact hst)

/-- Helper: the invariant is preserved along any event sequence. -/
theorem runSession_inv (opts : RecorderOptions) (evs : List SessionEvent) :
    ∀ s : SessionState, SessionInv s → SessionInv (runSession opts s evs).1 := by
  induction evs with
  | nil => intro s h; simpa [runSession] using h
  | cons e rest ih =>
    intro s h
    have h1 := stepSession_inv opts s e h
    simpa [runSession] using ih _ h1

/-- C8 counterexample: the biconditional fails on a reachable state. After a
fully successful `start()` followed by `cancel()`, the session is back in
idle, yet both `codec` and `transportKind` are still non-null, because
`cancel()` never clears them. -/
theorem codec_transport_iff_counterexample :
    (runSession sineOpts initialSession
       [SessionEvent.startEv goodStart, SessionEvent.cancelEv false]).1.codec ≠ none ∧
    (runSession sineOpts initialSession
       [SessionEvent.startEv goodStart, SessionEvent.cancelEv false]).1.transportKind ≠
      none ∧
    (runSession sineOpts initialSession
       [SessionEvent.startEv goodStart, SessionEvent.cancelEv false]).1.state =
      RecorderState.idle := by
  refine ⟨?_, ?_, by decide⟩ <;> decide

/-- C8 as amended: in every reachable session state, if the lifecycle state is
recording, stopping or complete then `codec` and `transportKind` are non-null
(the converse direction of the original biconditional is dropped: both fields
survive `cancel()` and failed starts, so they can be non-null in idle,
requesting and error states as well). -/
theorem codec_transport_nonnull_in_active_states (opts : RecorderOptions)
    (evs : List SessionEvent)
    (h : (runSession opts initialSession evs).1.state = RecorderState.recording ∨
         (runSession opts initialSession evs).1.state = RecorderState.stopping ∨
         (runSession opts initialSession evs).1.state = RecorderState.complete) :
    (runSession opts initialSession evs).1.codec ≠ none ∧
    (runSession opts initialSession evs).1.transportKind ≠ none := by
  have hinit : SessionInv initialSession := by
    intro hst
    rcases hst with h1 | h1 | h1 <;> exact absurd h1 (by decide)
  exact runSession_inv opts evs initialSession hinit h

/-- Witness for the amended C8: one successful start reaches the recording
state, where both fields are indeed non-null. -/
theorem codec_transport_nonnull_in_active_states_witness :
    (runSession sineOpts initialSession [SessionEvent.startEv goodStart]).1.state =
      RecorderState.recording ∧
    (runSession sineOpts initialSession [SessionEvent.startEv goodStart]).1.codec ≠ none ∧
    (runSession sineOpts initialSession
       [SessionEvent.startEv goodStart]).1.transportKind ≠ none := by
  refine ⟨by decide, ?_⟩
  exact codec_transport_nonnull_in_active_states sineOpts [SessionEvent.startEv goodStart]
    (Or.inl (by decide))

end Sine
